import Mathlib

/-!
Verification development for the Vulkan renderer in this repository
(`src/drivers/vulkan/vulkan_context.cpp`).  The definitions below are a
shallow embedding of the functions named in the comments; `uint32_t`
values are modelled as `Nat`, Vulkan enum values by their numeric
constants from `vulkan_core.h` or by small inductives, and fatal
diagnostics (`debugger.consoleMessage(_, true)`, which throws) by
`Option`/early return.
-/

namespace ApeEscape

/-! ## Vulkan numeric constants (values from vulkan_core.h) -/

def MAX_FRAMES_IN_FLIGHT : Nat := 2

def VK_FORMAT_B8G8R8A8_SRGB : Nat := 50
def VK_FORMAT_R8G8B8A8_SRGB : Nat := 43
def VK_FORMAT_D32_SFLOAT : Nat := 126
def VK_FORMAT_D32_SFLOAT_S8_UINT : Nat := 130
def VK_FORMAT_D24_UNORM_S8_UINT : Nat := 129
def VK_COLOR_SPACE_SRGB_NONLINEAR_KHR : Nat := 0

def VK_ACCESS_TRANSFER_WRITE_BIT : Nat := 0x00001000
def VK_ACCESS_SHADER_READ_BIT : Nat := 0x00000020
def VK_ACCESS_DEPTH_STENCIL_ATTACHMENT_READ_BIT : Nat := 0x00000200
def VK_ACCESS_DEPTH_STENCIL_ATTACHMENT_WRITE_BIT : Nat := 0x00000400

def VK_PIPELINE_STAGE_TOP_OF_PIPE_BIT : Nat := 0x00000001
def VK_PIPELINE_STAGE_TRANSFER_BIT : Nat := 0x00001000
def VK_PIPELINE_STAGE_FRAGMENT_SHADER_BIT : Nat := 0x00000080
def VK_PIPELINE_STAGE_EARLY_FRAGMENT_TESTS_BIT : Nat := 0x00000100

def VK_IMAGE_ASPECT_COLOR_BIT : Nat := 0x00000001
def VK_IMAGE_ASPECT_DEPTH_BIT : Nat := 0x00000002
def VK_IMAGE_ASPECT_STENCIL_BIT : Nat := 0x00000004

/-- `std::numeric_limits<uint32_t>::max()`. -/
def UINT32_MAX : Nat := 4294967295

/-! ## Surface format selection (`VulkanContext::chooseSwapSurfaceFormat`) -/

structure VkSurfaceFormatKHR where
  format : Nat
  colorSpace : Nat
deriving DecidableEq, Repr

/-- The preferred pair the loop in `chooseSwapSurfaceFormat` searches for:
8-bit BGRA sRGB format with sRGB nonlinear color space. -/
def preferredSurfaceFormat : VkSurfaceFormatKHR :=
  ⟨VK_FORMAT_B8G8R8A8_SRGB, VK_COLOR_SPACE_SRGB_NONLINEAR_KHR⟩

/-- The `for` loop in `chooseSwapSurfaceFormat`: return the first element
matching the preferred format/color-space pair, else `none`. -/
def findPreferredFormat : List VkSurfaceFormatKHR → Option VkSurfaceFormatKHR
  | [] => none
  | f :: rest =>
    if f.format = VK_FORMAT_B8G8R8A8_SRGB ∧
        f.colorSpace = VK_COLOR_SPACE_SRGB_NONLINEAR_KHR then
      some f
    else
      findPreferredFormat rest

/-- `VulkanContext::chooseSwapSurfaceFormat`: scan for the preferred pair,
falling back to `availableFormats[0]`.  Indexing `[0]` on an empty vector is
undefined in the source; modelled as `Option` via `head?`. -/
def chooseSwapSurfaceFormat (availableFormats : List VkSurfaceFormatKHR) :
    Option VkSurfaceFormatKHR :=
  match findPreferredFormat availableFormats with
  | some f => some f
  | none => availableFormats.head?

/-! ## Extent selection (`VulkanContext::chooseSwapExtent`) -/

structure VkExtent2D where
  width : Nat
  height : Nat
deriving DecidableEq, Repr

structure VkSurfaceCapabilitiesKHR where
  minImageCount : Nat
  maxImageCount : Nat
  currentExtent : VkExtent2D
  minImageExtent : VkExtent2D
  maxImageExtent : VkExtent2D
deriving DecidableEq, Repr

/-- `std::clamp(v, lo, hi)`: `v < lo → lo`, `hi < v → hi`, else `v`. -/
def stdClamp (v lo hi : Nat) : Nat :=
  if v < lo then lo else if hi < v then hi else v

/-- `VulkanContext::chooseSwapExtent`.  The drawable size reported by
`SDL_Vulkan_GetDrawableSize` is passed in as `(drawableW, drawableH)`. -/
def chooseSwapExtent (capabilities : VkSurfaceCapabilitiesKHR)
    (drawableW drawableH : Nat) : VkExtent2D :=
  if capabilities.currentExtent.width ≠ UINT32_MAX then
    capabilities.currentExtent
  else
    { width := stdClamp drawableW capabilities.minImageExtent.width
        capabilities.maxImageExtent.width,
      height := stdClamp drawableH capabilities.minImageExtent.height
        capabilities.maxImageExtent.height }

/-! ## Swapchain image count (`VulkanContext::createSwapchain`, lines 557-561) -/

/-- The requested image count computed in `createSwapchain`:
`minImageCount + 1`, clamped down to `maxImageCount` when that is nonzero. -/
def swapchainImageCount (capabilities : VkSurfaceCapabilitiesKHR) : Nat :=
  let imageCount := capabilities.minImageCount + 1
  if capabilities.maxImageCount > 0 ∧ imageCount > capabilities.maxImageCount then
    capabilities.maxImageCount
  else
    imageCount

/-! ## Mip level count (`VulkanContext::createTextureImage`, lines 1059-1061)

`static_cast<uint32_t>(std::floor(std::log2(std::max(w, h)))) + 1`.
For positive integers `n`, `Nat.log2 n` is exactly `floor (log2 n)`. -/

def mipLevelCount (texWidth texHeight : Nat) : Nat :=
  Nat.log2 (max texWidth texHeight) + 1

/-! ## Layout transitions (`VulkanContext::transitionImageLayout`) -/

inductive VkImageLayout where
  | undefined
  | general
  | colorAttachmentOptimal
  | depthStencilAttachmentOptimal
  | shaderReadOnlyOptimal
  | transferSrcOptimal
  | transferDstOptimal
  | presentSrcKHR
deriving DecidableEq, Repr

/-- `VulkanContext::hasStencilComponent`. -/
def hasStencilComponent (format : Nat) : Bool :=
  format == VK_FORMAT_D32_SFLOAT_S8_UINT || format == VK_FORMAT_D24_UNORM_S8_UINT

/-- The barrier parameters `transitionImageLayout` selects before calling
`vkCmdPipelineBarrier`. -/
structure BarrierSpec where
  srcAccessMask : Nat
  dstAccessMask : Nat
  sourceStage : Nat
  destinationStage : Nat
  aspectMask : Nat
deriving DecidableEq, Repr

/-- `VulkanContext::transitionImageLayout`: the aspect-mask selection and the
closed (oldLayout, newLayout) table.  The final `else` branch raises the fatal
"Unsupported layout transition!" diagnostic, modelled as `none`. -/
def transitionImageLayout (format : Nat) (oldLayout newLayout : VkImageLayout) :
    Option BarrierSpec :=
  let aspectMask :=
    if newLayout = VkImageLayout.depthStencilAttachmentOptimal then
      if hasStencilComponent format then
        VK_IMAGE_ASPECT_DEPTH_BIT ||| VK_IMAGE_ASPECT_STENCIL_BIT
      else
        VK_IMAGE_ASPECT_DEPTH_BIT
    else
      VK_IMAGE_ASPECT_COLOR_BIT
  if oldLayout = VkImageLayout.undefined ∧
      newLayout = VkImageLayout.transferDstOptimal then
    some { srcAccessMask := 0,
           dstAccessMask := VK_ACCESS_TRANSFER_WRITE_BIT,
           sourceStage := VK_PIPELINE_STAGE_TOP_OF_PIPE_BIT,
           destinationStage := VK_PIPELINE_STAGE_TRANSFER_BIT,
           aspectMask := aspectMask }
  else if oldLayout = VkImageLayout.transferDstOptimal ∧
      newLayout = VkImageLayout.shaderReadOnlyOptimal then
    some { srcAccessMask := VK_ACCESS_TRANSFER_WRITE_BIT,
           dstAccessMask := VK_ACCESS_SHADER_READ_BIT,
           sourceStage := VK_PIPELINE_STAGE_TRANSFER_BIT,
           destinationStage := VK_PIPELINE_STAGE_FRAGMENT_SHADER_BIT,
           aspectMask := aspectMask }
  else if oldLayout = VkImageLayout.undefined ∧
      newLayout = VkImageLayout.depthStencilAttachmentOptimal then
    some { srcAccessMask := 0,
           dstAccessMask := VK_ACCESS_DEPTH_STENCIL_ATTACHMENT_READ_BIT |||
             VK_ACCESS_DEPTH_STENCIL_ATTACHMENT_WRITE_BIT,
           sourceStage := VK_PIPELINE_STAGE_TOP_OF_PIPE_BIT,
           destinationStage := VK_PIPELINE_STAGE_EARLY_FRAGMENT_TESTS_BIT,
           aspectMask := aspectMask }
  else
    none

/-- The closed set of supported (old, new) layout pairs. -/
def supportedTransitions : List (VkImageLayout × VkImageLayout) :=
  [(VkImageLayout.undefined, VkImageLayout.transferDstOptimal),
   (VkImageLayout.transferDstOptimal, VkImageLayout.shaderReadOnlyOptimal),
   (VkImageLayout.undefined, VkImageLayout.depthStencilAttachmentOptimal)]

/-! ## Frame scheduler (`VulkanContext::drawFrame`, `createSyncObjects`)

`drawFrame` is embedded as a pure transition function on an abstract frame
state plus an oracle giving the results the driver returns
(`vkAcquireNextImageKHR`, `vkQueuePresentKHR`).  GPU completion is a
separate step of the surrounding transition system: a slot's fence may
signal at any time while its submission is outstanding.  `vkWaitForFences`
blocks until the slot's fence is signaled, so the `drawFrame` step of the
transition system may only fire in states where the current slot's fence is
signaled. -/

/-- Result of `vkAcquireNextImageKHR` / `vkQueuePresentKHR` as discriminated
in `drawFrame`: success, `VK_SUBOPTIMAL_KHR`, `VK_ERROR_OUT_OF_DATE_KHR`, or
any other (fatal) error code. -/
inductive VkResultClass where
  | success
  | suboptimal
  | outOfDate
  | otherError
deriving DecidableEq, Repr

/-- One per-frame slot: its fence (created signaled in `createSyncObjects`
via `VK_FENCE_CREATE_SIGNALED_BIT`) and whether its command buffer is in the
Submitted state (submitted to the queue, GPU work not yet complete). -/
structure FrameSlot where
  fenceSignaled : Bool
  submitted : Bool
deriving DecidableEq, Repr

/-- State of the frame scheduler: the `MAX_FRAMES_IN_FLIGHT = 2` slots, the
`currentFrame` counter and the `framebufferResized` flag. -/
structure FrameState where
  slot0 : FrameSlot
  slot1 : FrameSlot
  currentFrame : Nat
  framebufferResized : Bool
deriving DecidableEq, Repr

/-- Slot lookup by index (`inFlightFences[i]`, `commandBuffers[i]`). -/
def FrameState.slot (s : FrameState) (i : Nat) : FrameSlot :=
  if i % 2 = 0 then s.slot0 else s.slot1

/-- Slot update by index. -/
def FrameState.setSlot (s : FrameState) (i : Nat) (t : FrameSlot) : FrameState :=
  if i % 2 = 0 then { s with slot0 := t } else { s with slot1 := t }

/-- The state after `createSyncObjects`: both fences signaled, no command
buffer submitted, `currentFrame = 0`, `framebufferResized = false`. -/
def initFrameState : FrameState :=
  { slot0 := { fenceSignaled := true, submitted := false },
    slot1 := { fenceSignaled := true, submitted := false },
    currentFrame := 0,
    framebufferResized := false }

/-- Driver responses consumed by one `drawFrame` call. -/
structure FrameOracle where
  acquireResult : VkResultClass
  presentResult : VkResultClass
deriving DecidableEq, Repr

/-- Observable actions of one `drawFrame` call, in program order. -/
inductive FrameEvent where
  | waitFence (slot : Nat)
  | acquireImage
  | recreateSwapchain
  | resetFence (slot : Nat)
  | resetCommandBuffer (slot : Nat)
  | recordCommandBuffer (slot : Nat)
  | updateUniform (slot : Nat)
  | queueSubmit (slot : Nat)
  | queuePresent
  | fatalDiagnostic
deriving DecidableEq, Repr

/-- `VulkanContext::drawFrame`, line for line:
wait on the slot's fence; acquire (out-of-date → recreate and return, other
hard error → fatal throw); reset the fence; reset and re-record the slot's
command buffer; update uniforms; submit with the fence; present
(out-of-date / suboptimal / `framebufferResized` → clear the flag and
recreate, other non-success → fatal throw); advance
`currentFrame = (currentFrame + 1) % MAX_FRAMES_IN_FLIGHT`.
A fatal diagnostic throws from `drawFrame`, so nothing after it runs.
Meaningful only in states where the slot's fence is signaled (the wait has
returned). -/
def drawFrame (s : FrameState) (o : FrameOracle) : FrameState × List FrameEvent :=
  let c := s.currentFrame % MAX_FRAMES_IN_FLIGHT
  let pre : List FrameEvent := [.waitFence c, .acquireImage]
  match o.acquireResult with
  | .outOfDate => (s, pre ++ [.recreateSwapchain])
  | .otherError => (s, pre ++ [.fatalDiagnostic])
  | _ =>
    let s1 := s.setSlot c { fenceSignaled := false, submitted := false }
    let s2 := s1.setSlot c { fenceSignaled := false, submitted := true }
    let mid : List FrameEvent :=
      pre ++ [.resetFence c, .resetCommandBuffer c, .recordCommandBuffer c,
        .updateUniform c, .queueSubmit c, .queuePresent]
    if o.presentResult = .outOfDate ∨ o.presentResult = .suboptimal ∨
        s.framebufferResized then
      ({ s2 with
          framebufferResized := false,
          currentFrame := (s.currentFrame + 1) % MAX_FRAMES_IN_FLIGHT },
        mid ++ [.recreateSwapchain])
    else if o.presentResult ≠ .success then
      (s2, mid ++ [.fatalDiagnostic])
    else
      ({ s2 with
          currentFrame := (s.currentFrame + 1) % MAX_FRAMES_IN_FLIGHT },
        mid)

/-- Transition system around `drawFrame`: either the GPU finishes a slot's
outstanding work (signaling its fence), or the CPU runs one `drawFrame`
iteration, which can start only once the current slot's fence is signaled
(`vkWaitForFences` blocks until then). -/
inductive FrameStep : FrameState → List FrameEvent → FrameState → Prop where
  | gpuFinish (s : FrameState) (i : Nat)
      (hsub : (s.slot i).submitted = true) :
      FrameStep s [] (s.setSlot i { fenceSignaled := true, submitted := false })
  | frame (s : FrameState) (o : FrameOracle)
      (hfence : (s.slot (s.currentFrame % MAX_FRAMES_IN_FLIGHT)).fenceSignaled
        = true) :
      FrameStep s (drawFrame s o).2 (drawFrame s o).1

/-- States reachable from the post-`createSyncObjects` initial state. -/
inductive FrameReachable : FrameState → Prop where
  | init : FrameReachable initFrameState
  | step {s : FrameState} {evs : List FrameEvent} {t : FrameState} :
      FrameReachable s → FrameStep s evs t → FrameReachable t

/-- Number of command buffers currently in the Submitted state. -/
def submittedCount (s : FrameState) : Nat :=
  (if s.slot0.submitted then 1 else 0) + (if s.slot1.submitted then 1 else 0)

/-! ## Resource lifecycle (`recreateSwapchain`, `cleanupSwapchain`, `cleanup`)

Vulkan handles are modelled as `Nat` identifiers, freshly allocated from a
counter; each create/destroy/free API call is logged as an event.
`vkFreeMemory` is logged as a destroy of a `deviceMemory` resource. -/

inductive ResKind where
  | imageView
  | image
  | deviceMemory
  | framebuffer
  | swapchain
  | sampler
  | buffer
  | descriptorPool
  | descriptorSetLayout
  | pipeline
  | pipelineLayout
  | renderPass
  | semaphore
  | fence
  | commandPool
  | device
  | debugMessenger
  | surface
  | instanceHandle
deriving DecidableEq, Repr

inductive VkEvent where
  | deviceWaitIdle
  | destroy (kind : ResKind) (handle : Nat)
  | create (kind : ResKind) (handle : Nat)
deriving DecidableEq, Repr

/-- `true` exactly for destroy/free calls. -/
def VkEvent.isDestroy : VkEvent → Bool
  | .destroy _ _ => true
  | _ => false

/-- The `VulkanContext` members involved in swapchain recreation and
teardown, as handle identifiers.  `nextId` is the fresh-handle counter of
the model. -/
structure VCtx where
  nextId : Nat
  device : Nat
  instanceHandle : Nat
  surface : Nat
  debugMessenger : Nat
  enableValidationLayers : Bool
  commandPool : Nat
  commandBuffers : List Nat
  graphicsPipeline : Nat
  pipelineLayout : Nat
  renderPass : Nat
  descriptorPool : Nat
  descriptorSetLayout : Nat
  imageAvailableSemaphores : List Nat
  renderFinishedSemaphores : List Nat
  inFlightFences : List Nat
  textureSampler : Nat
  textureSampler2 : Nat
  textureImageView : Nat
  textureImageView2 : Nat
  textureImage : Nat
  textureImage2 : Nat
  textureImageMemory : Nat
  textureImageMemory2 : Nat
  uniformBuffers : List Nat
  uniformBuffers2 : List Nat
  uniformBuffersMemory : List Nat
  uniformBuffersMemory2 : List Nat
  indexBuffer : Nat
  indexBuffer2 : Nat
  indexBufferMemory : Nat
  indexBufferMemory2 : Nat
  vertexBuffer : Nat
  vertexBuffer2 : Nat
  vertexBufferMemory : Nat
  vertexBufferMemory2 : Nat
  swapchain : Nat
  swapchainImages : List Nat
  swapchainImageViews : List Nat
  swapchainFramebuffers : List Nat
  colorImage : Nat
  colorImageView : Nat
  colorImageMemory : Nat
  depthImage : Nat
  depthImageView : Nat
  depthImageMemory : Nat
deriving DecidableEq, Repr

/-- `VulkanContext::cleanupSwapchain` (lines 317-341): destroy the MSAA
color view/image/memory, the depth view/image/memory, every framebuffer,
every per-image view, then the swapchain handle. -/
def cleanupSwapchainEvents (ctx : VCtx) : List VkEvent :=
  [.destroy .imageView ctx.colorImageView,
   .destroy .image ctx.colorImage,
   .destroy .deviceMemory ctx.colorImageMemory,
   .destroy .imageView ctx.depthImageView,
   .destroy .image ctx.depthImage,
   .destroy .deviceMemory ctx.depthImageMemory]
  ++ ctx.swapchainFramebuffers.map (fun h => .destroy .framebuffer h)
  ++ ctx.swapchainImageViews.map (fun h => .destroy .imageView h)
  ++ [.destroy .swapchain ctx.swapchain]

/-- `n` fresh handle identifiers starting at `start`. -/
def freshIds (start n : Nat) : List Nat :=
  (List.range n).map (fun k => start + k)

/-- Environment consumed by a swapchain rebuild: the image count the driver
reports back from `vkGetSwapchainImagesKHR` (which fixes the length of
`swapchainImages` via `resize`). -/
structure SwapchainEnv where
  queriedImageCount : Nat
deriving DecidableEq, Repr

/-- `VulkanContext::createSwapchain` (resource effect): create the swapchain
handle, then fetch the driver-reported images into `swapchainImages`
(`vkGetSwapchainImagesKHR` — retrieval, not creation, so no create events
for the images themselves). -/
def createSwapchainSt (ctx : VCtx) (env : SwapchainEnv) : VCtx × List VkEvent :=
  let sc := ctx.nextId
  let imgs := freshIds (ctx.nextId + 1) env.queriedImageCount
  ({ ctx with
      nextId := ctx.nextId + 1 + env.queriedImageCount,
      swapchain := sc,
      swapchainImages := imgs },
    [.create .swapchain sc])

/-- `VulkanContext::createImageViews`: one view per swapchain image. -/
def createImageViewsSt (ctx : VCtx) : VCtx × List VkEvent :=
  let views := freshIds ctx.nextId ctx.swapchainImages.length
  ({ ctx with
      nextId := ctx.nextId + ctx.swapchainImages.length,
      swapchainImageViews := views },
    views.map (fun h => .create .imageView h))

/-- `VulkanContext::createColorResources`: `createImage` (image handle +
memory allocation) followed by `createImageView`. -/
def createColorResourcesSt (ctx : VCtx) : VCtx × List VkEvent :=
  let img := ctx.nextId
  let mem := ctx.nextId + 1
  let view := ctx.nextId + 2
  ({ ctx with
      nextId := ctx.nextId + 3,
      colorImage := img,
      colorImageMemory := mem,
      colorImageView := view },
    [.create .image img, .create .deviceMemory mem, .create .imageView view])

/-- `VulkanContext::createDepthResources`: `createImage` + `createImageView`
(+ a layout transition, which creates no resources). -/
def createDepthResourcesSt (ctx : VCtx) : VCtx × List VkEvent :=
  let img := ctx.nextId
  let mem := ctx.nextId + 1
  let view := ctx.nextId + 2
  ({ ctx with
      nextId := ctx.nextId + 3,
      depthImage := img,
      depthImageMemory := mem,
      depthImageView := view },
    [.create .image img, .create .deviceMemory mem, .create .imageView view])

/-- `VulkanContext::createFramebuffers`: one framebuffer per image view. -/
def createFramebuffersSt (ctx : VCtx) : VCtx × List VkEvent :=
  let fbs := freshIds ctx.nextId ctx.swapchainImageViews.length
  ({ ctx with
      nextId := ctx.nextId + ctx.swapchainImageViews.length,
      swapchainFramebuffers := fbs },
    fbs.map (fun h => .create .framebuffer h))

/-- `VulkanContext::recreateSwapchain` (lines 2071-2093): after the
minimized-window poll loop, `vkDeviceWaitIdle`, `cleanupSwapchain`, then
`createSwapchain`, `createImageViews`, `createColorResources`,
`createDepthResources`, `createFramebuffers`. -/
def recreateSwapchainSt (ctx : VCtx) (env : SwapchainEnv) :
    VCtx × List VkEvent :=
  let destroyEvs := cleanupSwapchainEvents ctx
  let r1 := createSwapchainSt ctx env
  let r2 := createImageViewsSt r1.1
  let r3 := createColorResourcesSt r2.1
  let r4 := createDepthResourcesSt r3.1
  let r5 := createFramebuffersSt r4.1
  (r5.1,
    [.deviceWaitIdle] ++ destroyEvs ++ r1.2 ++ r2.2 ++ r3.2 ++ r4.2 ++ r5.2)

/-- `VulkanContext::cleanup` (lines 2315-2404): `vkDeviceWaitIdle`, then
`cleanupSwapchain` and every destroy/free in source order. -/
def cleanupEvents (ctx : VCtx) : List VkEvent :=
  [.deviceWaitIdle]
  ++ cleanupSwapchainEvents ctx
  ++ [.destroy .sampler ctx.textureSampler,
      .destroy .sampler ctx.textureSampler2,
      .destroy .imageView ctx.textureImageView,
      .destroy .imageView ctx.textureImageView2,
      .destroy .image ctx.textureImage,
      .destroy .image ctx.textureImage2,
      .destroy .deviceMemory ctx.textureImageMemory,
      .destroy .deviceMemory ctx.textureImageMemory2]
  ++ ((List.range MAX_FRAMES_IN_FLIGHT).map (fun i =>
      [VkEvent.destroy .buffer (ctx.uniformBuffers.getD i 0),
       VkEvent.destroy .buffer (ctx.uniformBuffers2.getD i 0),
       VkEvent.destroy .deviceMemory (ctx.uniformBuffersMemory.getD i 0),
       VkEvent.destroy .deviceMemory (ctx.uniformBuffersMemory2.getD i 0)])).flatten
  ++ [.destroy .descriptorPool ctx.descriptorPool,
      .destroy .descriptorSetLayout ctx.descriptorSetLayout,
      .destroy .buffer ctx.indexBuffer,
      .destroy .buffer ctx.indexBuffer2,
      .destroy .deviceMemory ctx.indexBufferMemory,
      .destroy .deviceMemory ctx.indexBufferMemory2,
      .destroy .buffer ctx.vertexBuffer,
      .destroy .buffer ctx.vertexBuffer2,
      .destroy .deviceMemory ctx.vertexBufferMemory,
      .destroy .deviceMemory ctx.vertexBufferMemory2,
      .destroy .pipeline ctx.graphicsPipeline,
      .destroy .pipelineLayout ctx.pipelineLayout,
      .destroy .renderPass ctx.renderPass]
  ++ ((List.range MAX_FRAMES_IN_FLIGHT).map (fun i =>
      [VkEvent.destroy .semaphore (ctx.renderFinishedSemaphores.getD i 0),
       VkEvent.destroy .semaphore (ctx.imageAvailableSemaphores.getD i 0),
       VkEvent.destroy .fence (ctx.inFlightFences.getD i 0)])).flatten
  ++ [.destroy .commandPool ctx.commandPool,
      .destroy .device ctx.device]
  ++ (if ctx.enableValidationLayers then
      [VkEvent.destroy .debugMessenger ctx.debugMessenger] else [])
  ++ [.destroy .surface ctx.surface,
      .destroy .instanceHandle ctx.instanceHandle]

/-- A concrete `VulkanContext` population (arbitrary distinct handles, three
swapchain images, the two per-frame slots), used to evaluate the teardown
and recreation models on explicit input. -/
def sampleVCtx : VCtx :=
  { nextId := 100,
    device := 1,
    instanceHandle := 2,
    surface := 3,
    debugMessenger := 4,
    enableValidationLayers := true,
    commandPool := 5,
    commandBuffers := [6, 7],
    graphicsPipeline := 8,
    pipelineLayout := 9,
    renderPass := 10,
    descriptorPool := 11,
    descriptorSetLayout := 12,
    imageAvailableSemaphores := [13, 14],
    renderFinishedSemaphores := [15, 16],
    inFlightFences := [17, 18],
    textureSampler := 19,
    textureSampler2 := 20,
    textureImageView := 21,
    textureImageView2 := 22,
    textureImage := 23,
    textureImage2 := 24,
    textureImageMemory := 25,
    textureImageMemory2 := 26,
    uniformBuffers := [27, 28],
    uniformBuffers2 := [29, 30],
    uniformBuffersMemory := [31, 32],
    uniformBuffersMemory2 := [33, 34],
    indexBuffer := 35,
    indexBuffer2 := 36,
    indexBufferMemory := 37,
    indexBufferMemory2 := 38,
    vertexBuffer := 39,
    vertexBuffer2 := 40,
    vertexBufferMemory := 41,
    vertexBufferMemory2 := 42,
    swapchain := 43,
    swapchainImages := [44, 45, 46],
    swapchainImageViews := [47, 48, 49],
    swapchainFramebuffers := [50, 51, 52],
    colorImage := 53,
    colorImageView := 54,
    colorImageMemory := 55,
    depthImage := 56,
    depthImageView := 57,
    depthImageMemory := 58 }

end ApeEscape

namespace ApeEscape

/-! ## Helper lemmas -/

lemma findPreferredFormat_eq_some_of_mem (l : List VkSurfaceFormatKHR)
    (hmem : preferredSurfaceFormat ∈ l) :
    findPreferredFormat l = some preferredSurfaceFormat := by
  induction l with
  | nil => cases hmem
  | cons f rest ih =>
    by_cases hf : f.format = VK_FORMAT_B8G8R8A8_SRGB ∧
        f.colorSpace = VK_COLOR_SPACE_SRGB_NONLINEAR_KHR
    · have hfp : f = preferredSurfaceFormat := by
        cases f
        simp only [preferredSurfaceFormat]
        simp_all
      subst hfp
      simp [findPreferredFormat, preferredSurfaceFormat,
        VK_FORMAT_B8G8R8A8_SRGB, VK_COLOR_SPACE_SRGB_NONLINEAR_KHR]
    · have hrest : preferredSurfaceFormat ∈ rest := by
        rcases List.mem_cons.mp hmem with heq | hr
        · exfalso
          apply hf
          rw [← heq]
          exact ⟨rfl, rfl⟩
        · exact hr
      simp [findPreferredFormat, hf, ih hrest]

lemma findPreferredFormat_eq_none_of_not_mem (l : List VkSurfaceFormatKHR)
    (hmem : preferredSurfaceFormat ∉ l) :
    findPreferredFormat l = none := by
  induction l with
  | nil => rfl
  | cons f rest ih =>
    have hf : ¬(f.format = VK_FORMAT_B8G8R8A8_SRGB ∧
        f.colorSpace = VK_COLOR_SPACE_SRGB_NONLINEAR_KHR) := by
      intro hc
      apply hmem
      have : f = preferredSurfaceFormat := by
        cases f
        simp only [preferredSurfaceFormat]
        simp_all
      rw [← this]
      exact List.mem_cons_self f rest
    have hrest : preferredSurfaceFormat ∉ rest := fun hr =>
      hmem (List.mem_cons_of_mem f hr)
    simp [findPreferredFormat, hf, ih hrest]

/-! ## C8: surface-format selection -/

/-- C8. For every list of available surface formats: if the preferred
(BGRA8, sRGB-nonlinear) pair occurs anywhere in the list,
`chooseSwapSurfaceFormat` returns it; otherwise it returns the first element
of the list (`availableFormats[0]`). -/
theorem chooseSwapSurfaceFormat_spec (l : List VkSurfaceFormatKHR) :
    (preferredSurfaceFormat ∈ l →
      chooseSwapSurfaceFormat l = some preferredSurfaceFormat) ∧
    (preferredSurfaceFormat ∉ l → chooseSwapSurfaceFormat l = l.head?) := by
  constructor
  · intro hmem
    simp [chooseSwapSurfaceFormat, findPreferredFormat_eq_some_of_mem l hmem]
  · intro hmem
    simp [chooseSwapSurfaceFormat, findPreferredFormat_eq_none_of_not_mem l hmem]

/-- Witness for C8 at concrete inputs: a list containing the preferred pair
in second position, and a list without it. -/
theorem chooseSwapSurfaceFormat_spec_witness :
    chooseSwapSurfaceFormat [⟨44, 0⟩, preferredSurfaceFormat] =
      some preferredSurfaceFormat ∧
    chooseSwapSurfaceFormat [⟨44, 0⟩, ⟨44, 1⟩] = some ⟨44, 0⟩ :=
  ⟨(chooseSwapSurfaceFormat_spec [⟨44, 0⟩, preferredSurfaceFormat]).1
      (by decide),
   (chooseSwapSurfaceFormat_spec [⟨44, 0⟩, ⟨44, 1⟩]).2 (by decide)⟩

/-! ## C7: extent selection -/

/-- C7. If the surface reports a concrete current extent (width different
from the `uint32_t` maximum), `chooseSwapExtent` returns it unchanged;
otherwise the result is the drawable size clamped component-wise to
`[minImageExtent, maxImageExtent]`, and in particular any drawable size
already within those bounds is returned exactly. -/
theorem chooseSwapExtent_spec (capabilities : VkSurfaceCapabilitiesKHR)
    (w h : Nat) :
    (capabilities.currentExtent.width ≠ UINT32_MAX →
      chooseSwapExtent capabilities w h = capabilities.currentExtent) ∧
    (capabilities.currentExtent.width = UINT32_MAX →
      (chooseSwapExtent capabilities w h).width =
        stdClamp w capabilities.minImageExtent.width
          capabilities.maxImageExtent.width ∧
      (chooseSwapExtent capabilities w h).height =
        stdClamp h capabilities.minImageExtent.height
          capabilities.maxImageExtent.height ∧
      (capabilities.minImageExtent.width ≤ w →
        w ≤ capabilities.maxImageExtent.width →
        capabilities.minImageExtent.height ≤ h →
        h ≤ capabilities.maxImageExtent.height →
        chooseSwapExtent capabilities w h = ⟨w, h⟩)) := by
  constructor
  · intro hne
    simp [chooseSwapExtent, hne]
  · intro heq
    refine ⟨by simp [chooseSwapExtent, heq], by simp [chooseSwapExtent, heq],
      fun hw1 hw2 hh1 hh2 => ?_⟩
    have hcw : stdClamp w capabilities.minImageExtent.width
        capabilities.maxImageExtent.width = w := by
      simp only [stdClamp]
      rw [if_neg (by omega), if_neg (by omega)]
    have hch : stdClamp h capabilities.minImageExtent.height
        capabilities.maxImageExtent.height = h := by
      simp only [stdClamp]
      rw [if_neg (by omega), if_neg (by omega)]
    simp [chooseSwapExtent, heq, hcw, hch]

/-- Witness for C7: a capability report with no concrete extent and
bounds `[100, 2000]²`; a drawable size of `640 × 480` is kept exactly. -/
theorem chooseSwapExtent_spec_witness :
    chooseSwapExtent ⟨2, 4, ⟨UINT32_MAX, 600⟩, ⟨100, 100⟩, ⟨2000, 2000⟩⟩
      640 480 = ⟨640, 480⟩ :=
  (chooseSwapExtent_spec ⟨2, 4, ⟨UINT32_MAX, 600⟩, ⟨100, 100⟩, ⟨2000, 2000⟩⟩
      640 480).2 rfl |>.2.2 (by decide) (by decide) (by decide) (by decide)

/-! ## C9: swapchain image count -/

/-- C9. The requested image count is `minImageCount + 1`, except when the
reported maximum is nonzero and smaller than that, in which case it is the
maximum; a zero maximum (unbounded) imposes no clamp. -/
theorem swapchainImageCount_spec (capabilities : VkSurfaceCapabilitiesKHR) :
    swapchainImageCount capabilities =
      if capabilities.maxImageCount ≠ 0 ∧
          capabilities.maxImageCount < capabilities.minImageCount + 1 then
        capabilities.maxImageCount
      else
        capabilities.minImageCount + 1 := by
  simp only [swapchainImageCount]
  split <;> split <;> omega

/-! ## C10: mip level count -/

/-- C10. For positive texture dimensions the computed mip level count `m`
satisfies `2 ^ (m - 1) ≤ max w h < 2 ^ m`, i.e. it equals
`floor (log2 (max w h)) + 1`; for a 512×300 texture it is 10. -/
theorem mipLevelCount_spec (texWidth texHeight : Nat) (hw : 0 < texWidth)
    (hh : 0 < texHeight) :
    2 ^ (mipLevelCount texWidth texHeight - 1) ≤ max texWidth texHeight ∧
    max texWidth texHeight < 2 ^ mipLevelCount texWidth texHeight ∧
    mipLevelCount 512 300 = 10 := by
  have hmax : max texWidth texHeight ≠ 0 := by
    simp only [ne_eq, Nat.max_eq_zero_iff]
    omega
  have h512 : Nat.log2 512 = 9 := by
    rw [Nat.log2_eq_log_two]
    rw [Nat.log_eq_of_pow_le_of_lt_pow] <;> norm_num
  refine ⟨?_, ?_, by simp [mipLevelCount, h512]⟩
  · simpa [mipLevelCount] using Nat.log2_self_le hmax
  · simpa [mipLevelCount] using Nat.lt_log2_self (n := max texWidth texHeight)

/-- Witness for C10 at the 512×300 texture of the spec scenario. -/
theorem mipLevelCount_spec_witness :
    2 ^ (mipLevelCount 512 300 - 1) ≤ max 512 300 ∧
    max 512 300 < 2 ^ mipLevelCount 512 300 ∧
    mipLevelCount 512 300 = 10 :=
  mipLevelCount_spec 512 300 (by decide) (by decide)

/-! ## C6: layout-transition table -/

/-- C6. The (old, new) layout table of `transitionImageLayout` is closed:
any pair outside {undefined→transfer-dst, transfer-dst→shader-read-only,
undefined→depth-stencil-attachment} is the fatal "unsupported transition"
case (`none`), and each listed pair selects exactly the documented access
masks and pipeline stages. -/
theorem transitionImageLayout_spec (format : Nat) :
    (∀ oldLayout newLayout : VkImageLayout,
      (oldLayout, newLayout) ∉ supportedTransitions →
      transitionImageLayout format oldLayout newLayout = none) ∧
    transitionImageLayout format VkImageLayout.undefined
      VkImageLayout.transferDstOptimal =
      some ⟨0, VK_ACCESS_TRANSFER_WRITE_BIT, VK_PIPELINE_STAGE_TOP_OF_PIPE_BIT,
        VK_PIPELINE_STAGE_TRANSFER_BIT, VK_IMAGE_ASPECT_COLOR_BIT⟩ ∧
    transitionImageLayout format VkImageLayout.transferDstOptimal
      VkImageLayout.shaderReadOnlyOptimal =
      some ⟨VK_ACCESS_TRANSFER_WRITE_BIT, VK_ACCESS_SHADER_READ_BIT,
        VK_PIPELINE_STAGE_TRANSFER_BIT, VK_PIPELINE_STAGE_FRAGMENT_SHADER_BIT,
        VK_IMAGE_ASPECT_COLOR_BIT⟩ ∧
    transitionImageLayout format VkImageLayout.undefined
      VkImageLayout.depthStencilAttachmentOptimal =
      some ⟨0, VK_ACCESS_DEPTH_STENCIL_ATTACHMENT_READ_BIT |||
          VK_ACCESS_DEPTH_STENCIL_ATTACHMENT_WRITE_BIT,
        VK_PIPELINE_STAGE_TOP_OF_PIPE_BIT,
        VK_PIPELINE_STAGE_EARLY_FRAGMENT_TESTS_BIT,
        if hasStencilComponent format then
          VK_IMAGE_ASPECT_DEPTH_BIT ||| VK_IMAGE_ASPECT_STENCIL_BIT
        else VK_IMAGE_ASPECT_DEPTH_BIT⟩ := by
  refine ⟨fun oldLayout newLayout hnot => ?_, ?_, ?_, ?_⟩
  · cases oldLayout <;> cases newLayout <;>
      simp_all [transitionImageLayout, supportedTransitions]
  · simp [transitionImageLayout]
  · simp [transitionImageLayout]
  · by_cases hs : hasStencilComponent format <;>
      simp [transitionImageLayout, hs]

/-- Witness for C6: the pair (shader-read-only → transfer-dst) is outside
the table and rejected, for the texture format used by the program. -/
theorem transitionImageLayout_spec_witness :
    transitionImageLayout VK_FORMAT_R8G8B8A8_SRGB
      VkImageLayout.shaderReadOnlyOptimal VkImageLayout.transferDstOptimal =
      none :=
  (transitionImageLayout_spec VK_FORMAT_R8G8B8A8_SRGB).1
    VkImageLayout.shaderReadOnlyOptimal VkImageLayout.transferDstOptimal
    (by decide)

end ApeEscape

namespace ApeEscape

/-! ## Frame scheduler lemmas -/

lemma slot_setSlot (s : FrameState) (i j : Nat) (t : FrameSlot) :
    (s.setSlot i t).slot j = if i % 2 = j % 2 then t else s.slot j := by
  rcases Nat.mod_two_eq_zero_or_one i with hi | hi <;>
    rcases Nat.mod_two_eq_zero_or_one j with hj | hj <;>
    simp [FrameState.setSlot, FrameState.slot, hi, hj]

lemma currentFrame_setSlot (s : FrameState) (i : Nat) (t : FrameSlot) :
    (s.setSlot i t).currentFrame = s.currentFrame := by
  unfold FrameState.setSlot
  split <;> rfl

lemma framebufferResized_setSlot (s : FrameState) (i : Nat) (t : FrameSlot) :
    (s.setSlot i t).framebufferResized = s.framebufferResized := by
  unfold FrameState.setSlot
  split <;> rfl

/-- The fence/submission invariant: a slot is in the Submitted state exactly
while its fence is unsignaled. -/
def fenceInv (s : FrameState) : Prop :=
  ∀ i : Nat, (s.slot i).submitted = !(s.slot i).fenceSignaled

lemma fenceInv_init : fenceInv initFrameState := by
  intro i
  rcases Nat.mod_two_eq_zero_or_one i with hi | hi <;>
    simp [initFrameState, FrameState.slot, hi]

lemma fenceInv_after_submit (s : FrameState) (c j : Nat) (hinv : fenceInv s) :
    (((s.setSlot c ⟨false, false⟩).setSlot c ⟨false, true⟩).slot j).submitted =
      !(((s.setSlot c ⟨false, false⟩).setSlot c
          ⟨false, true⟩).slot j).fenceSignaled := by
  rw [slot_setSlot]
  split
  · rfl
  · rw [slot_setSlot]
    split
    · rename_i hne heq
      exact (hne heq).elim
    · exact hinv j

lemma fenceInv_step {s : FrameState} {evs : List FrameEvent} {t : FrameState}
    (hinv : fenceInv s) (hstep : FrameStep s evs t) : fenceInv t := by
  cases hstep with
  | gpuFinish i hsub =>
    intro j
    rw [slot_setSlot]
    split
    · rfl
    · exact hinv j
  | frame o hfence =>
    intro j
    rcases hacq : o.acquireResult with _ | _ | _ | _ <;>
      simp only [drawFrame, hacq]
    · split
      · exact fenceInv_after_submit s _ j hinv
      · split
        · exact fenceInv_after_submit s _ j hinv
        · exact fenceInv_after_submit s _ j hinv
    · split
      · exact fenceInv_after_submit s _ j hinv
      · split
        · exact fenceInv_after_submit s _ j hinv
        · exact fenceInv_after_submit s _ j hinv
    · exact hinv j
    · exact hinv j

lemma fenceInv_reachable {s : FrameState} (h : FrameReachable s) : fenceInv s := by
  induction h with
  | init => exact fenceInv_init
  | step _ hstep ih => exact fenceInv_step ih hstep

end ApeEscape

namespace ApeEscape

/-! ## C1: frame-slot fence discipline -/

/-- C1. Across any reachable execution with the two frame slots (fences
created signaled): at most `MAX_FRAMES_IN_FLIGHT` command buffers are in the
Submitted state, and a submitted command buffer's fence is unsignaled; a
step never resets or re-records a slot's command buffer unless that slot's
fence is signaled at the start of the step; a completed `drawFrame`
iteration (acquire succeeded or was suboptimal, present did not fail
fatally) advances `currentFrame` by one modulo `MAX_FRAMES_IN_FLIGHT`. -/
theorem drawFrame_fence_discipline :
    (∀ s : FrameState, FrameReachable s →
      submittedCount s ≤ MAX_FRAMES_IN_FLIGHT ∧
      ∀ i : Nat, (s.slot i).submitted = true →
        (s.slot i).fenceSignaled = false) ∧
    (∀ (s : FrameState) (evs : List FrameEvent) (t : FrameState),
      FrameReachable s → FrameStep s evs t → ∀ i : Nat,
      (FrameEvent.resetCommandBuffer i ∈ evs ∨
        FrameEvent.recordCommandBuffer i ∈ evs) →
      (s.slot i).fenceSignaled = true) ∧
    (∀ (s : FrameState) (o : FrameOracle),
      (o.acquireResult = VkResultClass.success ∨
        o.acquireResult = VkResultClass.suboptimal) →
      o.presentResult ≠ VkResultClass.otherError →
      (drawFrame s o).1.currentFrame =
        (s.currentFrame + 1) % MAX_FRAMES_IN_FLIGHT) := by
  refine ⟨fun s hreach => ⟨?_, fun i hsub => ?_⟩,
    fun s evs t hreach hstep i hmem => ?_, fun s o hacq hpres => ?_⟩
  · unfold submittedCount MAX_FRAMES_IN_FLIGHT
    split <;> split <;> omega
  · have h := fenceInv_reachable hreach i
    rw [hsub] at h
    cases hfen : (s.slot i).fenceSignaled
    · rfl
    · rw [hfen] at h
      simp at h
  · cases hstep with
    | gpuFinish k hsub =>
      rcases hmem with hm | hm <;> simp at hm
    | frame o hfence =>
      rcases hacq : o.acquireResult with _ | _ | _ | _ <;>
        simp only [drawFrame, hacq] at hmem
      · rcases hmem with hm | hm <;> split at hm <;>
          (try split at hm) <;> simp at hm <;>
          (subst hm; exact hfence)
      · rcases hmem with hm | hm <;> split at hm <;>
          (try split at hm) <;> simp at hm <;>
          (subst hm; exact hfence)
      · rcases hmem with hm | hm <;> simp at hm
      · rcases hmem with hm | hm <;> simp at hm
  · rcases hacq with ha | ha <;> rcases hp : o.presentResult <;>
      rcases hfb : s.framebufferResized <;>
      simp_all [drawFrame]

/-- Witness for C1: the initial state is reachable and satisfies the bound;
a concrete full iteration from it re-records slot 0 only with its fence
signaled and advances the counter. -/
theorem drawFrame_fence_discipline_witness :
    submittedCount initFrameState ≤ MAX_FRAMES_IN_FLIGHT ∧
    (initFrameState.slot 0).fenceSignaled = true ∧
    (drawFrame initFrameState
        { acquireResult := VkResultClass.success,
          presentResult := VkResultClass.success }).1.currentFrame =
      (initFrameState.currentFrame + 1) % MAX_FRAMES_IN_FLIGHT := by
  refine ⟨(drawFrame_fence_discipline.1 initFrameState FrameReachable.init).1,
    ?_, drawFrame_fence_discipline.2.2 initFrameState
      { acquireResult := VkResultClass.success,
        presentResult := VkResultClass.success } (Or.inl rfl) (by decide)⟩
  exact drawFrame_fence_discipline.2.1 initFrameState _ _ FrameReachable.init
    (FrameStep.frame initFrameState
      { acquireResult := VkResultClass.success,
        presentResult := VkResultClass.success } (by decide)) 0
    (Or.inl (by decide))

/-! ## C2: abandoned iteration on out-of-date acquire -/

/-- C2. When acquire reports out-of-date, the iteration triggers swapchain
recreation and returns at once: the state is unchanged (in particular the
slot's fence stays signaled and `currentFrame` is unchanged), the fence is
not reset, no command buffer is reset or re-recorded, nothing is submitted
and nothing is presented, so the next iteration retries the same slot. -/
theorem drawFrame_acquire_out_of_date (s : FrameState) (o : FrameOracle)
    (hood : o.acquireResult = VkResultClass.outOfDate) :
    (drawFrame s o).1 = s ∧
    FrameEvent.recreateSwapchain ∈ (drawFrame s o).2 ∧
    (∀ i : Nat, FrameEvent.resetFence i ∉ (drawFrame s o).2) ∧
    (∀ i : Nat, FrameEvent.resetCommandBuffer i ∉ (drawFrame s o).2) ∧
    (∀ i : Nat, FrameEvent.recordCommandBuffer i ∉ (drawFrame s o).2) ∧
    (∀ i : Nat, FrameEvent.queueSubmit i ∉ (drawFrame s o).2) ∧
    FrameEvent.queuePresent ∉ (drawFrame s o).2 ∧
    (drawFrame s o).1.currentFrame = s.currentFrame ∧
    ((s.slot (s.currentFrame % MAX_FRAMES_IN_FLIGHT)).fenceSignaled = true →
      ((drawFrame s o).1.slot
        (s.currentFrame % MAX_FRAMES_IN_FLIGHT)).fenceSignaled = true) := by
  simp [drawFrame, hood]

/-- Witness for C2 at the initial state. -/
theorem drawFrame_acquire_out_of_date_witness :
    (drawFrame initFrameState
        { acquireResult := VkResultClass.outOfDate,
          presentResult := VkResultClass.success }).1 = initFrameState ∧
    FrameEvent.recreateSwapchain ∈
      (drawFrame initFrameState
        { acquireResult := VkResultClass.outOfDate,
          presentResult := VkResultClass.success }).2 :=
  ⟨(drawFrame_acquire_out_of_date initFrameState
      { acquireResult := VkResultClass.outOfDate,
        presentResult := VkResultClass.success } rfl).1,
   (drawFrame_acquire_out_of_date initFrameState
      { acquireResult := VkResultClass.outOfDate,
        presentResult := VkResultClass.success } rfl).2.1⟩

/-! ## C3: recreation triggers -/

/-- C3 counterexample: an iteration whose acquire returns suboptimal (and
whose present succeeds, with no pending resize flag) does NOT trigger
swapchain recreation, contrary to the claim that acquire-suboptimal is a
recreation trigger. -/
theorem drawFrame_acquire_suboptimal_no_recreate :
    FrameEvent.recreateSwapchain ∉
      (drawFrame initFrameState
        { acquireResult := VkResultClass.suboptimal,
          presentResult := VkResultClass.success }).2 := by
  decide

/-- C3 amended. Swapchain recreation is triggered in a `drawFrame`
iteration exactly when acquire returns out-of-date, or when acquire allows
the frame to proceed (success or suboptimal) and at present time the
present result is out-of-date or suboptimal or the external resize flag is
set; acquire returning suboptimal by itself is treated as success and does
not trigger recreation. -/
theorem drawFrame_recreate_iff (s : FrameState) (o : FrameOracle) :
    FrameEvent.recreateSwapchain ∈ (drawFrame s o).2 ↔
      (o.acquireResult = VkResultClass.outOfDate ∨
        ((o.acquireResult = VkResultClass.success ∨
            o.acquireResult = VkResultClass.suboptimal) ∧
          (o.presentResult = VkResultClass.outOfDate ∨
            o.presentResult = VkResultClass.suboptimal ∨
            s.framebufferResized = true))) := by
  rcases hacq : o.acquireResult <;> rcases hpres : o.presentResult <;>
    rcases hfb : s.framebufferResized <;>
    simp [drawFrame, hacq, hpres, hfb]

end ApeEscape

namespace ApeEscape

/-! ## Resource lifecycle lemmas -/

lemma length_freshIds (start n : Nat) : (freshIds start n).length = n := by
  simp [freshIds]

lemma filter_isDestroy_map_destroy (k : ResKind) (l : List Nat) :
    (l.map (fun h => VkEvent.destroy k h)).filter VkEvent.isDestroy =
      l.map (fun h => VkEvent.destroy k h) := by
  induction l with
  | nil => rfl
  | cons a t ih => simp [VkEvent.isDestroy, ih]

lemma filter_isDestroy_map_create (k : ResKind) (l : List Nat) :
    (l.map (fun h => VkEvent.create k h)).filter VkEvent.isDestroy = [] := by
  induction l with
  | nil => rfl
  | cons a t ih => simp [VkEvent.isDestroy, ih]

/-! ## C4: frame effect of swapchain recreation -/

/-- C4. `recreateSwapchain` waits for device idle first; the destroy/free
calls it performs are exactly those of `cleanupSwapchain` — the MSAA color
view/image/memory, the depth view/image/memory, every old framebuffer,
every old per-image view, and the old swapchain handle; the logical device,
pipeline, pipeline layout, render pass, descriptor pool and set layout,
command pool, command buffers and sync objects are left unchanged; and
afterwards the per-image arrays (images, views, framebuffers) all have
length equal to the newly queried image count. -/
theorem recreateSwapchain_frame_effect (ctx : VCtx) (env : SwapchainEnv) :
    ((recreateSwapchainSt ctx env).2).head? = some VkEvent.deviceWaitIdle ∧
    ((recreateSwapchainSt ctx env).2).filter VkEvent.isDestroy =
      ([.destroy .imageView ctx.colorImageView,
        .destroy .image ctx.colorImage,
        .destroy .deviceMemory ctx.colorImageMemory,
        .destroy .imageView ctx.depthImageView,
        .destroy .image ctx.depthImage,
        .destroy .deviceMemory ctx.depthImageMemory]
       ++ ctx.swapchainFramebuffers.map (fun h => VkEvent.destroy .framebuffer h)
       ++ ctx.swapchainImageViews.map (fun h => VkEvent.destroy .imageView h)
       ++ [.destroy .swapchain ctx.swapchain]) ∧
    (recreateSwapchainSt ctx env).1.device = ctx.device ∧
    (recreateSwapchainSt ctx env).1.graphicsPipeline = ctx.graphicsPipeline ∧
    (recreateSwapchainSt ctx env).1.pipelineLayout = ctx.pipelineLayout ∧
    (recreateSwapchainSt ctx env).1.renderPass = ctx.renderPass ∧
    (recreateSwapchainSt ctx env).1.descriptorPool = ctx.descriptorPool ∧
    (recreateSwapchainSt ctx env).1.descriptorSetLayout =
      ctx.descriptorSetLayout ∧
    (recreateSwapchainSt ctx env).1.commandPool = ctx.commandPool ∧
    (recreateSwapchainSt ctx env).1.commandBuffers = ctx.commandBuffers ∧
    (recreateSwapchainSt ctx env).1.imageAvailableSemaphores =
      ctx.imageAvailableSemaphores ∧
    (recreateSwapchainSt ctx env).1.renderFinishedSemaphores =
      ctx.renderFinishedSemaphores ∧
    (recreateSwapchainSt ctx env).1.inFlightFences = ctx.inFlightFences ∧
    (recreateSwapchainSt ctx env).1.swapchainImages.length =
      env.queriedImageCount ∧
    (recreateSwapchainSt ctx env).1.swapchainImageViews.length =
      env.queriedImageCount ∧
    (recreateSwapchainSt ctx env).1.swapchainFramebuffers.length =
      env.queriedImageCount := by
  refine ⟨rfl, ?_, ?_⟩
  · simp [recreateSwapchainSt, cleanupSwapchainEvents, createSwapchainSt,
      createImageViewsSt, createColorResourcesSt, createDepthResourcesSt,
      createFramebuffersSt, List.filter_append, VkEvent.isDestroy,
      filter_isDestroy_map_destroy, filter_isDestroy_map_create]
  · simp [recreateSwapchainSt, createSwapchainSt, createImageViewsSt,
      createColorResourcesSt, createDepthResourcesSt, createFramebuffersSt,
      length_freshIds]

/-! ## C5: shutdown ordering -/

/-- C5. On the clean-shutdown path (`cleanup`), the very first action is
the device-idle wait, and every destroy/free call on a resource comes
strictly after it: before the position of any destroy event, the wait has
already occurred. -/
theorem cleanup_waits_before_destroy (ctx : VCtx) :
    (cleanupEvents ctx).head? = some VkEvent.deviceWaitIdle ∧
    ∀ (i : Nat) (e : VkEvent), (cleanupEvents ctx)[i]? = some e →
      e.isDestroy = true →
      VkEvent.deviceWaitIdle ∈ (cleanupEvents ctx).take i := by
  obtain ⟨rest, hrest⟩ :
      ∃ rest, cleanupEvents ctx = VkEvent.deviceWaitIdle :: rest := ⟨_, rfl⟩
  refine ⟨by rw [hrest]; rfl, fun i e hget hdes => ?_⟩
  match i with
  | 0 =>
    rw [hrest] at hget
    simp only [List.getElem?_cons_zero, Option.some.injEq] at hget
    rw [← hget] at hdes
    simp [VkEvent.isDestroy] at hdes
  | Nat.succ j =>
    rw [hrest]
    simp [List.take_succ_cons]

/-- Witness for C5: in the concrete context, the event at index 1 is a
destroy, and the wait indeed precedes it. -/
theorem cleanup_waits_before_destroy_witness :
    VkEvent.deviceWaitIdle ∈ (cleanupEvents sampleVCtx).take 1 :=
  (cleanup_waits_before_destroy sampleVCtx).2 1
    (VkEvent.destroy ResKind.imageView 54) (by decide) (by decide)

end ApeEscape
